import Mathlib

/-!
Verification of the curriculum-driven paper-allocation engine of
`ml-services/src/utils/syllabus_analyzer.py` (class `SyllabusAnalyzer`).

Shallow embedding notes:
- Python dicts keyed by strings become association lists `List (String × α)`;
  Python 3.7+ dicts preserve insertion order, which the embedding keeps.
- `int((w / W) * total_marks)` in `select_topics` performs float division and
  truncation; for the non-negative integers involved this is modelled as the
  exact rational floor, i.e. Nat division `w * total_marks / W`.
- Methods that can raise (`get_syllabus` raises `ValueError` when the nested
  lookup comes up empty) return `Except SyllabusError`.
- The `difficulty_distribution` argument of `get_question_distribution` is a
  `Dict[str, float]` that is only carried along, never computed with, so it is
  modelled as an opaque type parameter.
-/

/-- A syllabus unit as stored in `_load_syllabus_data`: the `question_types`
key is optional (`unit.get("question_types", ...)` supplies a default). -/
structure SyllabusUnit where
  name : String
  topics : List String
  weightage : Nat
  difficulty : String
  question_types : Option (List String)
deriving Repr, DecidableEq

/-- One section of a paper pattern: the Python dict
`{"type": ..., "questions": ..., "marks_per_question": ...}`.
The Python key `"type"` is renamed `qtype` here. -/
structure SectionConfig where
  qtype : String
  questions : Nat
  marks_per_question : Nat
deriving Repr, DecidableEq

/-- A curriculum entry for one (board, class level, subject) key.
Every bundled entry carries `total_marks` and `duration`; `paper_pattern`
is present only for CBSE class_10 Mathematics and is looked up in the code
with `syllabus.get("paper_pattern", {})`, hence the `Option`. -/
structure CurriculumEntry where
  units : List SyllabusUnit
  total_marks : Nat
  duration : String
  paper_pattern : Option (List (String × SectionConfig))
deriving Repr, DecidableEq

/-- One element of the list returned by `select_topics`. -/
structure TopicAllocation where
  unit_name : String
  topics : List String
  allocated_marks : Nat
  difficulty : String
  question_types : List String
deriving Repr, DecidableEq

/-- One value of the dict returned by `get_question_distribution`;
`α` is the opaque type of the caller's difficulty mix. -/
structure SectionAllocation (α : Type) where
  qtype : String
  questions : Nat
  marks_per_question : Nat
  total_marks : Nat
  difficulty_distribution : α
deriving Repr, DecidableEq

/-- The dict returned by `validate_paper_requirements`. -/
structure ValidationResult where
  is_valid : Bool
  warnings : List String
  suggestions : List String
deriving Repr, DecidableEq

/-- The only error the analyzer raises: the `ValueError` of `get_syllabus`
("Syllabus not found for {board} {class_level} {subject}"). -/
inductive SyllabusError where
  | notFound (board : String) (class_level : String) (subject : String)
deriving Repr, DecidableEq

/-- CBSE class_10 Mathematics entry of `_load_syllabus_data`. -/
def cbse10Math : CurriculumEntry :=
  { units :=
      [ { name := "Real Numbers",
          topics := ["Euclid\x27s Division Lemma", "Fundamental Theorem of Arithmetic", "Irrational Numbers"],
          weightage := 6, difficulty := "medium",
          question_types := some ["mcq", "short_answer", "long_answer"] },
        { name := "Polynomials",
          topics := ["Zeroes of Polynomial", "Relationship between Zeroes and Coefficients", "Division Algorithm"],
          weightage := 4, difficulty := "medium",
          question_types := some ["mcq", "short_answer", "long_answer"] },
        { name := "Pair of Linear Equations",
          topics := ["Graphical Method", "Algebraic Methods", "Cross Multiplication Method"],
          weightage := 6, difficulty := "medium",
          question_types := some ["mcq", "short_answer", "long_answer"] },
        { name := "Quadratic Equations",
          topics := ["Solution by Factorization", "Solution by Completing Square", "Quadratic Formula"],
          weightage := 6, difficulty := "hard",
          question_types := some ["mcq", "short_answer", "long_answer"] },
        { name := "Arithmetic Progressions",
          topics := ["General Term", "Sum of n Terms", "Applications"],
          weightage := 4, difficulty := "medium",
          question_types := some ["mcq", "short_answer", "long_answer"] },
        { name := "Triangles",
          topics := ["Similarity of Triangles", "Pythagoras Theorem", "Basic Proportionality Theorem"],
          weightage := 6, difficulty := "medium",
          question_types := some ["mcq", "short_answer", "long_answer"] },
        { name := "Coordinate Geometry",
          topics := ["Distance Formula", "Section Formula", "Area of Triangle"],
          weightage := 4, difficulty := "medium",
          question_types := some ["mcq", "short_answer", "long_answer"] },
        { name := "Trigonometry",
          topics := ["Trigonometric Ratios", "Trigonometric Identities", "Applications"],
          weightage := 5, difficulty := "hard",
          question_types := some ["mcq", "short_answer", "long_answer"] },
        { name := "Applications of Trigonometry",
          topics := ["Heights and Distances", "Real-life Applications"],
          weightage := 4, difficulty := "hard",
          question_types := some ["mcq", "short_answer", "long_answer"] },
        { name := "Circles",
          topics := ["Tangent to Circle", "Number of Tangents", "Properties of Tangents"],
          weightage := 4, difficulty := "medium",
          question_types := some ["mcq", "short_answer", "long_answer"] },
        { name := "Constructions",
          topics := ["Division of Line Segment", "Construction of Tangents"],
          weightage := 3, difficulty := "medium",
          question_types := some ["long_answer"] },
        { name := "Areas Related to Circles",
          topics := ["Area of Sector", "Area of Segment", "Areas of Combinations"],
          weightage := 3, difficulty := "medium",
          question_types := some ["mcq", "short_answer", "long_answer"] },
        { name := "Surface Areas and Volumes",
          topics := ["Surface Area", "Volume", "Combinations of Solids"],
          weightage := 4, difficulty := "medium",
          question_types := some ["mcq", "short_answer", "long_answer"] },
        { name := "Statistics",
          topics := ["Mean", "Median", "Mode", "Cumulative Frequency"],
          weightage := 4, difficulty := "easy",
          question_types := some ["mcq", "short_answer", "long_answer"] },
        { name := "Probability",
          topics := ["Theoretical Probability", "Experimental Probability"],
          weightage := 3, difficulty := "easy",
          question_types := some ["mcq", "short_answer", "long_answer"] } ],
    total_marks := 80,
    duration := "3 hours",
    paper_pattern := some
      [ ("section_a", { qtype := "mcq", questions := 20, marks_per_question := 1 }),
        ("section_b", { qtype := "short_answer", questions := 6, marks_per_question := 2 }),
        ("section_c", { qtype := "short_answer", questions := 8, marks_per_question := 3 }),
        ("section_d", { qtype := "long_answer", questions := 6, marks_per_question := 4 }) ] }

/-- CBSE class_10 Science entry of `_load_syllabus_data`: none of its units
declares `question_types`, and the entry has no `paper_pattern`. -/
def cbse10Science : CurriculumEntry :=
  { units :=
      [ { name := "Chemical Reactions and Equations",
          topics := ["Chemical Changes", "Balancing Equations", "Types of Reactions"],
          weightage := 5, difficulty := "medium", question_types := none },
        { name := "Acids, Bases and Salts",
          topics := ["pH Scale", "Neutralization", "Salts"],
          weightage := 5, difficulty := "medium", question_types := none },
        { name := "Metals and Non-metals",
          topics := ["Physical Properties", "Chemical Properties", "Reactivity Series"],
          weightage := 5, difficulty := "medium", question_types := none },
        { name := "Carbon and its Compounds",
          topics := ["Covalent Bonding", "Hydrocarbons", "Functional Groups"],
          weightage := 4, difficulty := "hard", question_types := none },
        { name := "Life Processes",
          topics := ["Nutrition", "Respiration", "Transportation", "Excretion"],
          weightage := 6, difficulty := "medium", question_types := none },
        { name := "Control and Coordination",
          topics := ["Nervous System", "Endocrine System", "Plant Hormones"],
          weightage := 4, difficulty := "medium", question_types := none },
        { name := "How do Organisms Reproduce",
          topics := ["Asexual Reproduction", "Sexual Reproduction", "Reproductive Health"],
          weightage := 4, difficulty := "medium", question_types := none },
        { name := "Heredity and Evolution",
          topics := ["Inheritance", "Variation", "Evolution"],
          weightage := 4, difficulty := "hard", question_types := none },
        { name := "Light - Reflection and Refraction",
          topics := ["Reflection", "Refraction", "Lenses", "Mirrors"],
          weightage := 5, difficulty := "hard", question_types := none },
        { name := "Human Eye and Colourful World",
          topics := ["Eye Structure", "Defects", "Dispersion", "Scattering"],
          weightage := 3, difficulty := "medium", question_types := none },
        { name := "Electricity",
          topics := ["Ohm\x27s Law", "Resistance", "Series and Parallel Circuits"],
          weightage := 5, difficulty := "hard", question_types := none },
        { name := "Magnetic Effects of Electric Current",
          topics := ["Magnetic Field", "Electromagnetic Induction", "Electric Motor"],
          weightage := 4, difficulty := "medium", question_types := none },
        { name := "Sources of Energy",
          topics := ["Conventional Sources", "Non-conventional Sources", "Environmental Impact"],
          weightage := 3, difficulty := "easy", question_types := none },
        { name := "Our Environment",
          topics := ["Ecosystem", "Food Chains", "Environmental Problems"],
          weightage := 3, difficulty := "easy", question_types := none },
        { name := "Management of Natural Resources",
          topics := ["Conservation", "Sustainable Development", "Local Management"],
          weightage := 3, difficulty := "easy", question_types := none } ],
    total_marks := 80,
    duration := "3 hours",
    paper_pattern := none }

/-- ICSE class_10 Mathematics entry of `_load_syllabus_data`: none of its
units declares `question_types`, and the entry has no `paper_pattern`. -/
def icse10Math : CurriculumEntry :=
  { units :=
      [ { name := "Commercial Mathematics",
          topics := ["Compound Interest", "Shares and Dividends", "Banking"],
          weightage := 15, difficulty := "medium", question_types := none },
        { name := "Algebra",
          topics := ["Linear Inequations", "Quadratic Equations", "Ratio and Proportion"],
          weightage := 25, difficulty := "medium", question_types := none },
        { name := "Geometry",
          topics := ["Similarity", "Loci", "Circles"],
          weightage := 20, difficulty := "medium", question_types := none },
        { name := "Mensuration",
          topics := ["Area and Volume", "Surface Area", "Combinations"],
          weightage := 15, difficulty := "medium", question_types := none },
        { name := "Trigonometry",
          topics := ["Trigonometric Ratios", "Heights and Distances"],
          weightage := 15, difficulty := "hard", question_types := none },
        { name := "Statistics",
          topics := ["Mean", "Median", "Mode", "Histograms"],
          weightage := 10, difficulty := "easy", question_types := none } ],
    total_marks := 80,
    duration := "2.5 hours",
    paper_pattern := none }

/-- The nested board → class level → subject dictionary built by
`_load_syllabus_data`, in declaration order. -/
def syllabus_data : List (String × List (String × List (String × CurriculumEntry))) :=
  [ ("CBSE", [("class_10", [("Mathematics", cbse10Math), ("Science", cbse10Science)])]),
    ("ICSE", [("class_10", [("Mathematics", icse10Math)])]) ]

/-- Python `dict.get(key, default_empty)` on a string-keyed dict. -/
def dictGet {α : Type} (d : List (String × α)) (k : String) : Option α :=
  (d.find? (fun p => p.1 == k)).map Prod.snd

/-- The chained lookup `self.syllabus_data.get(board, {}).get(class_level,
{}).get(subject, {})` of `get_syllabus`. -/
def lookup_entry (board : String) (class_level : String) (subject : String) :
    Option CurriculumEntry :=
  ((dictGet syllabus_data board).bind (fun d => dictGet d class_level)).bind
    (fun d => dictGet d subject)

/-- `get_syllabus`: the chained lookup followed by
`if not syllabus: raise ValueError(...)`.  A missing key at any level yields
the falsy `{}` and hence the raise; every stored entry is a non-empty dict,
so truthiness coincides with key presence. -/
def get_syllabus (board : String) (class_level : String) (subject : String) :
    Except SyllabusError CurriculumEntry :=
  match lookup_entry board class_level subject with
  | some syllabus => Except.ok syllabus
  | none => Except.error (SyllabusError.notFound board class_level subject)

/-- Default for `unit.get("question_types", ["mcq", "short_answer", "long_answer"])`. -/
def default_question_types : List String := ["mcq", "short_answer", "long_answer"]

/-- The unit-selection step of `select_topics`: `if topic_preferences:` is
Python truthiness, so both `None` and `[]` select every unit; otherwise
`[unit for unit in units if unit["name"] in topic_preferences]`. -/
def selected_units_of (units : List SyllabusUnit)
    (topic_preferences : Option (List String)) : List SyllabusUnit :=
  match topic_preferences with
  | some prefs =>
      if prefs.isEmpty then units
      else units.filter (fun u => prefs.contains u.name)
  | none => units

/-- The pure body of `select_topics` after `get_syllabus` has resolved:
weightage-proportional allocation with `int((w / W) * total_marks)` modelled
as `w * total_marks / W` (Nat floor division; `w / 0 = 0` in Lean, while in
Python a zero `W` is never divided by because the loop body does not run). -/
def select_topics_core (syllabus : CurriculumEntry) (total_marks : Nat)
    (topic_preferences : Option (List String)) : List TopicAllocation :=
  let selected_units := selected_units_of syllabus.units topic_preferences
  let total_weightage := (selected_units.map (fun u => u.weightage)).sum
  selected_units.map (fun u =>
    { unit_name := u.name,
      topics := u.topics,
      allocated_marks := u.weightage * total_marks / total_weightage,
      difficulty := u.difficulty,
      question_types := u.question_types.getD default_question_types })

/-- `select_topics(board, class_level, subject, total_marks, topic_preferences)`. -/
def select_topics (board : String) (class_level : String) (subject : String)
    (total_marks : Nat) (topic_preferences : Option (List String)) :
    Except SyllabusError (List TopicAllocation) :=
  (get_syllabus board class_level subject).map
    (fun syllabus => select_topics_core syllabus total_marks topic_preferences)

/-- The loop of `get_question_distribution`: iterate the pattern in declared
order keeping `remaining_marks`; include a section exactly when its marks fit,
then decrement; otherwise skip it without touching `remaining_marks`. -/
def distribute_sections {α : Type} (difficulty_distribution : α) :
    List (String × SectionConfig) → Nat → List (String × SectionAllocation α)
  | [], _ => []
  | (sec, config) :: rest, remaining_marks =>
      let section_marks := config.questions * config.marks_per_question
      if section_marks ≤ remaining_marks then
        (sec, { qtype := config.qtype,
                questions := config.questions,
                marks_per_question := config.marks_per_question,
                total_marks := section_marks,
                difficulty_distribution := difficulty_distribution })
          :: distribute_sections difficulty_distribution rest (remaining_marks - section_marks)
      else
        distribute_sections difficulty_distribution rest remaining_marks

/-- `get_question_distribution(board, class_level, subject, total_marks,
difficulty_distribution)`; `syllabus.get("paper_pattern", {})` becomes `getD []`. -/
def get_question_distribution {α : Type} (board : String) (class_level : String)
    (subject : String) (total_marks : Nat) (difficulty_distribution : α) :
    Except SyllabusError (List (String × SectionAllocation α)) :=
  (get_syllabus board class_level subject).map
    (fun syllabus =>
      distribute_sections difficulty_distribution (syllabus.paper_pattern.getD []) total_marks)

/-- The body of `validate_paper_requirements` after `get_syllabus` resolved:
`is_valid` is set `True` and never touched again; the three conditional
appends happen in source order (marks, duration, unit count); `suggestions`
is never appended to.  `syllabus.get("total_marks", 80)` and
`syllabus.get("duration", "3 hours")` always find their key in the bundled
catalog, so they are the entry's fields here. -/
def validate_core (board : String) (class_level : String) (subject : String)
    (syllabus : CurriculumEntry) (total_marks : Nat) (duration : String) :
    ValidationResult :=
  { is_valid := true,
    warnings :=
      (if total_marks ≠ syllabus.total_marks then
        ["Expected " ++ toString syllabus.total_marks ++ " marks for " ++
          board ++ " " ++ class_level ++ " " ++ subject]
      else []) ++
      (if duration ≠ syllabus.duration then
        ["Expected duration: " ++ syllabus.duration]
      else []) ++
      (if syllabus.units.length < 3 then
        ["Limited topics available for paper generation"]
      else []),
    suggestions := [] }

/-- `validate_paper_requirements(board, class_level, subject, total_marks, duration)`. -/
def validate_paper_requirements (board : String) (class_level : String)
    (subject : String) (total_marks : Nat) (duration : String) :
    Except SyllabusError ValidationResult :=
  (get_syllabus board class_level subject).map
    (fun syllabus => validate_core board class_level subject syllabus total_marks duration)

/-- The (unit name, allocated marks) pairs `select_topics` produces for the
spec's concrete scenario: CBSE class_10 Mathematics, 80 marks, no
preferences (weightage sum 66). -/
def cbse10MathExpectedAllocation : List (String × Nat) :=
  [("Real Numbers", 7), ("Polynomials", 4), ("Pair of Linear Equations", 7),
   ("Quadratic Equations", 7), ("Arithmetic Progressions", 4), ("Triangles", 7),
   ("Coordinate Geometry", 4), ("Trigonometry", 6), ("Applications of Trigonometry", 4),
   ("Circles", 4), ("Constructions", 3), ("Areas Related to Circles", 3),
   ("Surface Areas and Volumes", 4), ("Statistics", 4), ("Probability", 3)]

/-! ### Helper lemmas -/

theorem add_div_le_div_add (a b c : Nat) : a / c + b / c ≤ (a + b) / c := by
  rcases Nat.eq_zero_or_pos c with hc | hc
  · subst hc; simp
  · rw [Nat.le_div_iff_mul_le hc, Nat.add_mul]
    exact Nat.add_le_add (Nat.div_mul_le_self a c) (Nat.div_mul_le_self b c)

theorem map_div_sum_le (l : List Nat) (W T : Nat) :
    (l.map (fun w => w * T / W)).sum ≤ l.sum * T / W := by
  induction l with
  | nil => simp
  | cons w l ih =>
      simp only [List.map_cons, List.sum_cons]
      calc w * T / W + (l.map (fun w => w * T / W)).sum
          ≤ w * T / W + l.sum * T / W := Nat.add_le_add_left ih _
        _ ≤ (w * T + l.sum * T) / W := add_div_le_div_add _ _ _
        _ = (w + l.sum) * T / W := by rw [Nat.add_mul]

theorem mul_div_self_le_right (a T : Nat) : a * T / a ≤ T := by
  rcases Nat.eq_zero_or_pos a with h | h
  · subst h; simp
  · rw [Nat.mul_div_cancel_left T h]

/-- Dividing each weight by the total and scaling by `T` never sums past `T`. -/
theorem weights_div_sum_le (l : List Nat) (T : Nat) :
    (l.map (fun w => w * T / l.sum)).sum ≤ T :=
  le_trans (map_div_sum_le l l.sum T) (mul_div_self_le_right l.sum T)

theorem select_topics_core_sum_le (syllabus : CurriculumEntry) (T : Nat)
    (prefs : Option (List String)) :
    ((select_topics_core syllabus T prefs).map (fun a => a.allocated_marks)).sum ≤ T := by
  unfold select_topics_core
  simp only [List.map_map]
  have := weights_div_sum_le
    ((selected_units_of syllabus.units prefs).map (fun u => u.weightage)) T
  simpa [List.map_map, Function.comp] using this

theorem select_topics_ok_inv (board : String) (class_level : String) (subject : String)
    (total_marks : Nat) (prefs : Option (List String)) (allocs : List TopicAllocation)
    (h : select_topics board class_level subject total_marks prefs = Except.ok allocs) :
    ∃ syllabus, get_syllabus board class_level subject = Except.ok syllabus ∧
      allocs = select_topics_core syllabus total_marks prefs := by
  unfold select_topics at h
  cases hg : get_syllabus board class_level subject with
  | error e => rw [hg] at h; simp [Except.map] at h
  | ok syllabus =>
      rw [hg] at h
      simp only [Except.map, Except.ok.injEq] at h
      exact ⟨syllabus, rfl, h.symm⟩

theorem except_map_ok_inv {α β γ : Type} (f : α → β) (e : Except γ α) (b : β)
    (h : e.map f = Except.ok b) : ∃ a, e = Except.ok a ∧ b = f a := by
  cases e with
  | error x => simp [Except.map] at h
  | ok a =>
      simp only [Except.map, Except.ok.injEq] at h
      exact ⟨a, rfl, h.symm⟩

/-! ### Claim theorems -/

/-- C1 (counterexample): the claim says that a non-empty `topicPreferences`
matching no unit name makes `select_topics` fail with an
`InvalidConfigurationError`; on the code, the very input it describes
succeeds and silently returns the empty allocation list (the loop containing
the division never runs, so nothing is raised). -/
theorem select_topics_unmatched_prefs_counterexample :
    select_topics "CBSE" "class_10" "Mathematics" 80 (some ["No Such Unit"]) =
      Except.ok [] := rfl

/-- C1 (amended): for every catalog entry, budget and non-empty preference
list matching no unit name, `select_topics` succeeds and returns the empty
allocation list; no error is raised and no division is performed. -/
theorem select_topics_unmatched_prefs_ok_empty (board : String) (class_level : String)
    (subject : String) (syllabus : CurriculumEntry) (total_marks : Nat)
    (prefs : List String)
    (hlook : get_syllabus board class_level subject = Except.ok syllabus)
    (hne : prefs ≠ [])
    (hnomatch : ∀ u ∈ syllabus.units, u.name ∉ prefs) :
    select_topics board class_level subject total_marks (some prefs) =
      Except.ok [] := by
  unfold select_topics
  rw [hlook]
  simp only [Except.map, Except.ok.injEq]
  unfold select_topics_core selected_units_of
  have hemp : prefs.isEmpty = false := by
    cases prefs with
    | nil => exact absurd rfl hne
    | cons a l => rfl
  have hfilter : syllabus.units.filter (fun u => prefs.contains u.name) = [] := by
    apply List.filter_eq_nil_iff.mpr
    intro u hu hc
    exact hnomatch u hu (List.elem_iff.mp hc)
  simp [hemp, hfilter]
  exact hnomatch

/-- C1 (witness for the amended theorem). -/
theorem select_topics_unmatched_prefs_ok_empty_witness :
    select_topics "ICSE" "class_10" "Mathematics" 50 (some ["Calculus"]) =
      Except.ok [] :=
  select_topics_unmatched_prefs_ok_empty "ICSE" "class_10" "Mathematics" icse10Math
    50 ["Calculus"] rfl (by simp) (by decide)

/-- C2: whenever `select_topics` succeeds, the allocated marks sum to at most
the total-marks budget (floor truncation never overshoots). -/
theorem select_topics_sum_le_budget (board : String) (class_level : String)
    (subject : String) (total_marks : Nat) (prefs : Option (List String))
    (allocs : List TopicAllocation)
    (h : select_topics board class_level subject total_marks prefs = Except.ok allocs) :
    (allocs.map (fun a => a.allocated_marks)).sum ≤ total_marks := by
  obtain ⟨syllabus, -, rfl⟩ := select_topics_ok_inv _ _ _ _ _ _ h
  exact select_topics_core_sum_le syllabus total_marks prefs

/-- C2 (witness). -/
theorem select_topics_sum_le_budget_witness :
    ((select_topics_core cbse10Math 80 none).map (fun a => a.allocated_marks)).sum ≤ 80 :=
  select_topics_sum_le_budget "CBSE" "class_10" "Mathematics" 80 none
    (select_topics_core cbse10Math 80 none) rfl

/-- C6: `get_syllabus` returns the stored entry exactly when the nested
(board, class level, subject) lookup finds one, and fails with the
not-found error when the key is absent. -/
theorem get_syllabus_lookup_contract (board : String) (class_level : String)
    (subject : String) :
    (∀ entry : CurriculumEntry, lookup_entry board class_level subject = some entry →
        get_syllabus board class_level subject = Except.ok entry) ∧
    (lookup_entry board class_level subject = none →
        get_syllabus board class_level subject =
          Except.error (SyllabusError.notFound board class_level subject)) := by
  constructor
  · intro entry he
    unfold get_syllabus
    rw [he]
  · intro he
    unfold get_syllabus
    rw [he]

/-- C6 (witness): a present key and an absent key. -/
theorem get_syllabus_lookup_contract_witness :
    get_syllabus "CBSE" "class_10" "Mathematics" = Except.ok cbse10Math ∧
    get_syllabus "CBSE" "class_10" "History" =
      Except.error (SyllabusError.notFound "CBSE" "class_10" "History") :=
  ⟨(get_syllabus_lookup_contract "CBSE" "class_10" "Mathematics").1 cbse10Math rfl,
   (get_syllabus_lookup_contract "CBSE" "class_10" "History").2 rfl⟩

/-- C7: whenever `validate_paper_requirements` succeeds, the result has
`is_valid = true`, whatever the requested marks and duration are. -/
theorem validate_is_valid_always_true (board : String) (class_level : String)
    (subject : String) (total_marks : Nat) (duration : String)
    (res : ValidationResult)
    (h : validate_paper_requirements board class_level subject total_marks duration =
      Except.ok res) :
    res.is_valid = true := by
  obtain ⟨syllabus, -, rfl⟩ := except_map_ok_inv _ _ _ h
  rfl

/-- C7 (witness): a request mismatching both canonical marks and duration. -/
theorem validate_is_valid_always_true_witness :
    (validate_core "CBSE" "class_10" "Mathematics" cbse10Math 100 "1 hour").is_valid = true :=
  validate_is_valid_always_true "CBSE" "class_10" "Mathematics" 100 "1 hour"
    (validate_core "CBSE" "class_10" "Mathematics" cbse10Math 100 "1 hour") rfl

/-- C10: whenever `validate_paper_requirements` succeeds, the result has an
empty suggestions list and at most 3 warnings. -/
theorem validate_suggestions_empty_warnings_le_three (board : String)
    (class_level : String) (subject : String) (total_marks : Nat) (duration : String)
    (res : ValidationResult)
    (h : validate_paper_requirements board class_level subject total_marks duration =
      Except.ok res) :
    res.suggestions = [] ∧ res.warnings.length ≤ 3 := by
  obtain ⟨syllabus, -, rfl⟩ := except_map_ok_inv _ _ _ h
  refine ⟨rfl, ?_⟩
  unfold validate_core
  simp only [List.length_append]
  split <;> split <;> split <;> simp

/-- C10 (witness). -/
theorem validate_suggestions_empty_warnings_le_three_witness :
    (validate_core "ICSE" "class_10" "Mathematics" icse10Math 70 "1 hour").suggestions = [] ∧
    (validate_core "ICSE" "class_10" "Mathematics" icse10Math 70 "1 hour").warnings.length ≤ 3 :=
  validate_suggestions_empty_warnings_le_three "ICSE" "class_10" "Mathematics" 70 "1 hour"
    (validate_core "ICSE" "class_10" "Mathematics" icse10Math 70 "1 hour") rfl

theorem contains_eq_decide_mem (p : List String) (a : String) :
    p.contains a = decide (a ∈ p) := by
  by_cases h : a ∈ p
  · rw [decide_eq_true h]
    exact List.elem_iff.mpr h
  · rw [decide_eq_false h]
    cases hc : p.contains a
    · rfl
    · exact absurd (List.elem_iff.mp hc) h

theorem distribute_sections_step {α : Type} (dd : α) (sec : String)
    (config : SectionConfig) (rest : List (String × SectionConfig)) (r : Nat) :
    distribute_sections dd ((sec, config) :: rest) r =
      if config.questions * config.marks_per_question ≤ r then
        (sec, { qtype := config.qtype, questions := config.questions,
                marks_per_question := config.marks_per_question,
                total_marks := config.questions * config.marks_per_question,
                difficulty_distribution := dd })
          :: distribute_sections dd rest (r - config.questions * config.marks_per_question)
      else
        distribute_sections dd rest r := rfl

theorem distribute_sections_mem_bound {α : Type} (dd : α) :
    ∀ (pattern : List (String × SectionConfig)) (r : Nat)
      (x : String × SectionAllocation α), x ∈ distribute_sections dd pattern r →
      x.2.total_marks ≤ r ∧ x.2.difficulty_distribution = dd := by
  intro pattern
  induction pattern with
  | nil => intro r x hx; simp [distribute_sections] at hx
  | cons hd rest ih =>
      intro r x hx
      obtain ⟨sec, config⟩ := hd
      rw [distribute_sections_step] at hx
      by_cases hle : config.questions * config.marks_per_question ≤ r
      · rw [if_pos hle] at hx
        rcases List.mem_cons.mp hx with hx1 | hx2
        · subst hx1; exact ⟨hle, rfl⟩
        · obtain ⟨h1, h2⟩ := ih _ x hx2
          exact ⟨le_trans h1 (Nat.sub_le _ _), h2⟩
      · rw [if_neg hle] at hx
        exact ih _ x hx

/-- C3: whenever `get_question_distribution` succeeds, its output is the
greedy pass over the declared paper pattern: a section with
`sectionMarks = questionCount * marksPerQuestion` is included (carrying
`total_marks = sectionMarks` and the caller's difficulty mix) and the running
budget decremented exactly when `sectionMarks` fits the remaining budget, and
is silently omitted, leaving the budget unchanged, otherwise; consequently no
included section's marks exceed the budget remaining at its turn (in
particular never the initial budget). -/
theorem question_distribution_greedy {α : Type} (board : String)
    (class_level : String) (subject : String) (total_marks : Nat) (dd : α)
    (out : List (String × SectionAllocation α))
    (h : get_question_distribution board class_level subject total_marks dd =
      Except.ok out) :
    (∀ (sec : String) (config : SectionConfig)
        (rest : List (String × SectionConfig)) (r : Nat),
      distribute_sections dd ((sec, config) :: rest) r =
        if config.questions * config.marks_per_question ≤ r then
          (sec, { qtype := config.qtype, questions := config.questions,
                  marks_per_question := config.marks_per_question,
                  total_marks := config.questions * config.marks_per_question,
                  difficulty_distribution := dd })
            :: distribute_sections dd rest (r - config.questions * config.marks_per_question)
        else
          distribute_sections dd rest r) ∧
    (∃ syllabus, get_syllabus board class_level subject = Except.ok syllabus ∧
        out = distribute_sections dd (syllabus.paper_pattern.getD []) total_marks) ∧
    (∀ x ∈ out, x.2.total_marks ≤ total_marks ∧ x.2.difficulty_distribution = dd) := by
  obtain ⟨syllabus, hg, rfl⟩ := except_map_ok_inv _ _ _ h
  exact ⟨fun sec config rest r => distribute_sections_step dd sec config rest r,
    ⟨syllabus, hg, rfl⟩,
    fun x hx => distribute_sections_mem_bound dd _ _ x hx⟩

/-- C3 (witness): the CBSE class_10 Mathematics pattern at budget 80. -/
theorem question_distribution_greedy_witness :
    (∀ (sec : String) (config : SectionConfig)
        (rest : List (String × SectionConfig)) (r : Nat),
      distribute_sections (0 : Nat) ((sec, config) :: rest) r =
        if config.questions * config.marks_per_question ≤ r then
          (sec, { qtype := config.qtype, questions := config.questions,
                  marks_per_question := config.marks_per_question,
                  total_marks := config.questions * config.marks_per_question,
                  difficulty_distribution := (0 : Nat) })
            :: distribute_sections (0 : Nat) rest (r - config.questions * config.marks_per_question)
        else
          distribute_sections (0 : Nat) rest r) ∧
    (∃ syllabus, get_syllabus "CBSE" "class_10" "Mathematics" = Except.ok syllabus ∧
        distribute_sections (0 : Nat) (cbse10Math.paper_pattern.getD []) 80 =
          distribute_sections (0 : Nat) (syllabus.paper_pattern.getD []) 80) ∧
    (∀ x ∈ distribute_sections (0 : Nat) (cbse10Math.paper_pattern.getD []) 80,
      x.2.total_marks ≤ 80 ∧ x.2.difficulty_distribution = (0 : Nat)) :=
  question_distribution_greedy "CBSE" "class_10" "Mathematics" 80 (0 : Nat)
    (distribute_sections (0 : Nat) (cbse10Math.paper_pattern.getD []) 80) rfl

/-- C4: every allocation made by `select_topics` carries
`allocated_marks = floor(weightage * totalMarks / W)` with `W` the selected
units' weightage sum; in particular the spec's concrete scenario (CBSE
class_10 Mathematics, 80 marks, no preferences) selects all 15 units and
gives the first unit, of weightage 6, `floor(6 / 66 * 80) = 7` marks. -/
theorem select_topics_floor_formula (board : String) (class_level : String)
    (subject : String) (syllabus : CurriculumEntry) (total_marks : Nat)
    (prefs : Option (List String)) (allocs : List TopicAllocation)
    (hlook : get_syllabus board class_level subject = Except.ok syllabus)
    (h : select_topics board class_level subject total_marks prefs = Except.ok allocs) :
    allocs.map (fun a => (a.unit_name, a.allocated_marks)) =
      (selected_units_of syllabus.units prefs).map (fun u =>
        (u.name, u.weightage * total_marks /
          ((selected_units_of syllabus.units prefs).map (fun v => v.weightage)).sum)) ∧
    (select_topics "CBSE" "class_10" "Mathematics" 80 none).map
        (fun l => l.map (fun a => (a.unit_name, a.allocated_marks))) =
      Except.ok cbse10MathExpectedAllocation := by
  obtain ⟨syl, hg, rfl⟩ := select_topics_ok_inv _ _ _ _ _ _ h
  rw [hlook] at hg
  obtain rfl := Except.ok.inj hg
  constructor
  · unfold select_topics_core
    simp [List.map_map, Function.comp]
  · rfl

/-- C4 (witness): the concrete scenario itself. -/
theorem select_topics_floor_formula_witness :
    (select_topics_core cbse10Math 80 none).map (fun a => (a.unit_name, a.allocated_marks)) =
      (selected_units_of cbse10Math.units none).map (fun u =>
        (u.name, u.weightage * 80 /
          ((selected_units_of cbse10Math.units none).map (fun v => v.weightage)).sum)) ∧
    (select_topics "CBSE" "class_10" "Mathematics" 80 none).map
        (fun l => l.map (fun a => (a.unit_name, a.allocated_marks))) =
      Except.ok cbse10MathExpectedAllocation :=
  select_topics_floor_formula "CBSE" "class_10" "Mathematics" cbse10Math 80 none
    (select_topics_core cbse10Math 80 none) rfl rfl

/-- C5: `select_topics` selects all units when `topicPreferences` is omitted
(`None`) or empty, and exactly the units whose name is a member of the
preference list otherwise; the output keeps the catalog's declaration order
(filtering preserves order, so neither the preference order nor any
weightage or marks order is used). -/
theorem select_topics_selected_names (board : String) (class_level : String)
    (subject : String) (syllabus : CurriculumEntry) (total_marks : Nat)
    (prefs : Option (List String)) (allocs : List TopicAllocation)
    (hlook : get_syllabus board class_level subject = Except.ok syllabus)
    (h : select_topics board class_level subject total_marks prefs = Except.ok allocs) :
    allocs.map (fun a => a.unit_name) =
      (match prefs with
       | none => syllabus.units.map (fun u => u.name)
       | some p =>
           if p = [] then syllabus.units.map (fun u => u.name)
           else (syllabus.units.filter (fun u => decide (u.name ∈ p))).map
             (fun u => u.name)) := by
  obtain ⟨syl, hg, rfl⟩ := select_topics_ok_inv _ _ _ _ _ _ h
  rw [hlook] at hg
  obtain rfl := Except.ok.inj hg
  unfold select_topics_core selected_units_of
  cases prefs with
  | none => simp [List.map_map, Function.comp]
  | some p =>
      by_cases hp : p = []
      · subst hp
        simp [List.map_map, Function.comp]
      · have hemp : p.isEmpty = false := by
          cases p with
          | nil => exact absurd rfl hp
          | cons a l => rfl
        have hfil : syllabus.units.filter (fun u => p.contains u.name) =
            syllabus.units.filter (fun u => decide (u.name ∈ p)) := by
          apply List.filter_congr
          intro u hu
          exact contains_eq_decide_mem p u.name
        simp [hemp, hp, hfil, List.map_map, Function.comp]

/-- C5 (witness): preferences listed in reverse catalog order still come back
in catalog order. -/
theorem select_topics_selected_names_witness :
    (select_topics_core cbse10Math 80 (some ["Triangles", "Real Numbers"])).map
        (fun a => a.unit_name) =
      (match (some ["Triangles", "Real Numbers"] : Option (List String)) with
       | none => cbse10Math.units.map (fun u => u.name)
       | some p =>
           if p = [] then cbse10Math.units.map (fun u => u.name)
           else (cbse10Math.units.filter (fun u => decide (u.name ∈ p))).map
             (fun u => u.name)) :=
  select_topics_selected_names "CBSE" "class_10" "Mathematics" cbse10Math 80
    (some ["Triangles", "Real Numbers"])
    (select_topics_core cbse10Math 80 (some ["Triangles", "Real Numbers"])) rfl rfl

/-- C8: whenever `validate_paper_requirements` succeeds, its warnings are
exactly the marks-mismatch warning (present iff the requested total differs
from the canonical total), then the duration-mismatch warning (present iff
the requested duration differs from the canonical one), then the limited
topics warning (present iff the entry has fewer than 3 units) — and nothing
else. -/
theorem validate_warnings_exact (board : String) (class_level : String)
    (subject : String) (syllabus : CurriculumEntry) (total_marks : Nat)
    (duration : String) (res : ValidationResult)
    (hlook : get_syllabus board class_level subject = Except.ok syllabus)
    (h : validate_paper_requirements board class_level subject total_marks duration =
      Except.ok res) :
    res.warnings =
      (if total_marks ≠ syllabus.total_marks then
        ["Expected " ++ toString syllabus.total_marks ++ " marks for " ++
          board ++ " " ++ class_level ++ " " ++ subject]
      else []) ++
      (if duration ≠ syllabus.duration then
        ["Expected duration: " ++ syllabus.duration]
      else []) ++
      (if syllabus.units.length < 3 then
        ["Limited topics available for paper generation"]
      else []) := by
  obtain ⟨syl, hg, rfl⟩ := except_map_ok_inv _ _ _ h
  rw [hlook] at hg
  obtain rfl := Except.ok.inj hg
  rfl

/-- C8 (witness): a request with wrong marks and wrong duration against
ICSE class_10 Mathematics. -/
theorem validate_warnings_exact_witness :
    (validate_core "ICSE" "class_10" "Mathematics" icse10Math 100 "3 hours").warnings =
      (if (100 : Nat) ≠ icse10Math.total_marks then
        ["Expected " ++ toString icse10Math.total_marks ++ " marks for " ++
          "ICSE" ++ " " ++ "class_10" ++ " " ++ "Mathematics"]
      else []) ++
      (if "3 hours" ≠ icse10Math.duration then
        ["Expected duration: " ++ icse10Math.duration]
      else []) ++
      (if icse10Math.units.length < 3 then
        ["Limited topics available for paper generation"]
      else []) :=
  validate_warnings_exact "ICSE" "class_10" "Mathematics" icse10Math 100 "3 hours"
    (validate_core "ICSE" "class_10" "Mathematics" icse10Math 100 "3 hours") rfl rfl

/-- C9: each allocation's `question_types` is the unit's declared list when
present and the default `["mcq", "short_answer", "long_answer"]` when the
unit declares none; every CBSE class_10 Science unit and every ICSE class_10
Mathematics unit in the bundled catalog declares none, so each of them gets
the default when selected. -/
theorem select_topics_default_question_types (board : String)
    (class_level : String) (subject : String) (syllabus : CurriculumEntry)
    (total_marks : Nat) (prefs : Option (List String))
    (allocs : List TopicAllocation)
    (hlook : get_syllabus board class_level subject = Except.ok syllabus)
    (h : select_topics board class_level subject total_marks prefs = Except.ok allocs) :
    allocs.map (fun a => a.question_types) =
      (selected_units_of syllabus.units prefs).map
        (fun u => u.question_types.getD default_question_types) ∧
    (∀ u ∈ cbse10Science.units, u.question_types = none) ∧
    (∀ u ∈ icse10Math.units, u.question_types = none) := by
  obtain ⟨syl, hg, rfl⟩ := select_topics_ok_inv _ _ _ _ _ _ h
  rw [hlook] at hg
  obtain rfl := Except.ok.inj hg
  refine ⟨?_, by decide, by decide⟩
  unfold select_topics_core
  simp [List.map_map, Function.comp]

/-- C9 (witness): CBSE class_10 Science, where no unit declares
question types. -/
theorem select_topics_default_question_types_witness :
    (select_topics_core cbse10Science 80 none).map (fun a => a.question_types) =
      (selected_units_of cbse10Science.units none).map
        (fun u => u.question_types.getD default_question_types) ∧
    (∀ u ∈ cbse10Science.units, u.question_types = none) ∧
    (∀ u ∈ icse10Math.units, u.question_types = none) :=
  select_topics_default_question_types "CBSE" "class_10" "Science" cbse10Science
    80 none (select_topics_core cbse10Science 80 none) rfl rfl
